import Mathlib

/-!
Shallow embedding of `RemoteServiceManager`
(src/pw_bluetooth_sapphire/host/gatt/remote_service_manager.cc).

The manager owns an ordered catalog `services_ : std::map<att::Handle,
fbl::RefPtr<RemoteService>>`, a FIFO queue `pending_` of deferred
`ListServices` requests, the `initialized_` flag, and an optional service
watcher.  We model the catalog as a list of services sorted by ascending
start handle (the iteration order of the `std::map`), the queue as a list
(front first), and each asynchronous continuation of the source as a Lean
function from manager state to manager state plus a trace of observable
events (user callbacks invoked, services shut down, watcher calls).  The
`alive` flag passed to a continuation models whether the weak pointer
`self` is still valid when that continuation fires.
-/

namespace RemoteServiceManagerModel

/-- `ServiceData`: what the transport reports per discovered service —
a UUID and a contiguous handle range (`range_start`, `range_end`). -/
structure ServiceData where
  range_start : Nat
  range_end : Nat
  uuid : Nat
deriving DecidableEq, Repr

/-- A `RemoteService` as consumed by the manager: it is constructed from the
`ServiceData` and exposes `handle()` (= `range_start`), `uuid()`, and
`info().range_end`. -/
structure RemoteService where
  data : ServiceData
deriving DecidableEq, Repr

/-- `RemoteService::handle()` — the service's start handle. -/
def RemoteService.handle (s : RemoteService) : Nat := s.data.range_start

/-- `RemoteService::uuid()`. -/
def RemoteService.uuid (s : RemoteService) : Nat := s.data.uuid

/-- `att::Status`: success, a host-side error (`HostError`), or an
ATT protocol error (`att::ErrorCode`).  `Status.success` models the
default-constructed `att::Status()`. -/
inductive Status where
  | success : Status
  | hostError (code : Nat) : Status
  | protocolError (code : Nat) : Status
deriving DecidableEq, Repr

/-- `!status` in the source is `isSuccess = false`. -/
def Status.isSuccess : Status → Bool
  | .success => true
  | _ => false

@[simp]
theorem Status.isSuccess_success : Status.success.isSuccess = true := rfl

@[simp]
theorem Status.isSuccess_hostError (code : Nat) :
    (Status.hostError code).isSuccess = false := rfl

@[simp]
theorem Status.isSuccess_protocolError (code : Nat) :
    (Status.protocolError code).isSuccess = false := rfl

/-- `att::ErrorCode::kUnsupportedGroupType` (0x10). -/
def kUnsupportedGroupType : Nat := 16

/-- `HostError::kFailed`, the generic failure code used by the manager. -/
def kFailed : Nat := 1

/-- The catalog: `services_`, iterated in ascending key (start handle)
order. -/
abbrev ServiceMap := List RemoteService

/-- Exact-key lookup in `services_` (`services_.find(handle)`). -/
def findService (services : ServiceMap) (handle : Nat) : Option RemoteService :=
  services.find? (fun s => s.handle == handle)

/-- Ordered-map insertion: place the new service before the first entry
with a larger start handle (`services_[handle] = svc` on a key not yet
present). -/
def insertSorted : ServiceMap → RemoteService → ServiceMap
  | [], s => [s]
  | x :: xs, s => if s.handle < x.handle then s :: x :: xs else x :: insertSorted xs s

/-- `RemoteServiceManager::AddService`: reject a duplicate start handle
(log and return, catalog unchanged), otherwise construct the
`RemoteService` and insert it at its start handle. -/
def AddService (services : ServiceMap) (service_data : ServiceData) : ServiceMap :=
  match findService services service_data.range_start with
  | some _ => services
  | none => insertSorted services ⟨service_data⟩

/-- The services delivered by one discovery phase, applied in arrival
order through `AddService` (the `svc_cb` of `DiscoverServicesOfKind`). -/
def addAll (services : ServiceMap) (ds : List ServiceData) : ServiceMap :=
  ds.foldl AddService services

/-- Outcome of `OnNotification` (release semantics: the debug assert is
modelled separately by `onNotificationAssert`). -/
inductive NotifyOutcome where
  | droppedUnknown : NotifyOutcome
  | delivered (svc : RemoteService) : NotifyOutcome
  | droppedOutOfRange : NotifyOutcome
deriving DecidableEq, Repr

/-- Index returned by `services_.upper_bound(value_handle)`: the position
of the first entry with key greater than `value_handle` (for a catalog
sorted by start handle this is the number of leading entries with
start handle at most `value_handle`). -/
def upperBoundIdx (services : ServiceMap) (value_handle : Nat) : Nat :=
  (services.takeWhile (fun s => s.handle ≤ value_handle)).length

/-- The candidate entry inspected by `OnNotification`: `upper_bound`,
stepped back by one entry unless it already sits at `begin()`.
Returns `none` only for an empty catalog. -/
def notifCandidate (services : ServiceMap) (value_handle : Nat) : Option RemoteService :=
  let i := upperBoundIdx services value_handle
  services[if i = 0 then 0 else i - 1]?

/-- `ZX_DEBUG_ASSERT(value_handle >= svc->handle())` evaluated at the
candidate entry; `true` when the catalog is empty (the assert is not
reached). -/
def onNotificationAssert (services : ServiceMap) (value_handle : Nat) : Bool :=
  match notifCandidate services value_handle with
  | none => true
  | some svc => value_handle ≥ svc.handle

/-- `RemoteServiceManager::OnNotification` on the catalog: empty catalog
drops; otherwise the candidate from the stepped-back upper bound receives
the notification iff its `range_end` is at least `value_handle`. -/
def OnNotification (services : ServiceMap) (value_handle : Nat) : NotifyOutcome :=
  if services.isEmpty then .droppedUnknown
  else
    match notifCandidate services value_handle with
    | none => .droppedUnknown
    | some svc =>
      if svc.data.range_end ≥ value_handle then .delivered svc else .droppedOutOfRange

/-- `ServiceListRequest`: the deferred `ListServices` request — the
caller's callback (identified by `qid`) and the UUID filter `uuids_`. -/
structure PendingRequest where
  qid : Nat
  uuids : List Nat
deriving DecidableEq, Repr

/-- Observable effects of the manager: callbacks it invokes and the
`initialized_` write. -/
inductive Event where
  | flagSet : Event
  | watcherNotified (svc : RemoteService) : Event
  | initDone (st : Status) : Event
  | listResult (qid : Nat) (st : Status) (result : List RemoteService) : Event
  | svcShutDown (svc : RemoteService) : Event
  | handlerDetached : Event
deriving DecidableEq, Repr

/-- `RemoteServiceManager` state: the catalog, the FIFO `pending_` queue
(front first), `initialized_`, and whether a `svc_watcher_` is set. -/
structure Manager where
  services : ServiceMap
  pending : List PendingRequest
  initialized : Bool
  svc_watcher : Bool
deriving DecidableEq, Repr

/-- `ServiceListRequest::Complete(status, services)`: on failure or an
empty catalog the callback receives the empty list, otherwise the
services whose UUID matches the filter (`uuids_` empty = all), in catalog
iteration order. -/
def completeReq (req : PendingRequest) (st : Status) (services : ServiceMap) : Event :=
  if !st.isSuccess || services.isEmpty then
    .listResult req.qid st []
  else
    .listResult req.qid st
      (services.filter (fun svc => req.uuids.isEmpty || req.uuids.contains svc.uuid))

/-- The `init_cb` closure of `Initialize`: if `self` is gone, return at
once (the user callback is never run).  Otherwise set `initialized_`,
invoke the user's callback with `status`, then drain `pending_` front to
back, completing each request against the current catalog. -/
def initCb (alive : Bool) (m : Manager) (st : Status) : Manager × List Event :=
  if alive then
    let m1 := { m with initialized := true }
    let drained := m1.pending.map (fun req => completeReq req st m1.services)
    ({ m1 with pending := [] }, Event.flagSet :: Event.initDone st :: drained)
  else (m, [])

/-- `RemoteServiceManager::ClearServices`: move the catalog out, shut
down every service; the catalog ends empty. -/
def ClearServices (m : Manager) : Manager × List Event :=
  ({ m with services := [] }, m.services.map Event.svcShutDown)

/-- The `status_cb_wrapper` closure of `DiscoverServices`, fired with the
terminal discovery status: when `self` is gone it calls
`status_cb(kFailed)` (which is `init_cb`, a no-op for a dead manager);
on error it clears the catalog; on success it notifies the watcher once
per cataloged service; then it forwards `status` to `init_cb`. -/
def statusCbWrapper (alive : Bool) (m : Manager) (st : Status) : Manager × List Event :=
  if alive then
    if !st.isSuccess then
      let (m1, ev1) := ClearServices m
      let (m2, ev2) := initCb true m1 st
      (m2, ev1 ++ ev2)
    else
      let ev1 := if m.svc_watcher then m.services.map Event.watcherNotified else []
      let (m2, ev2) := initCb true m st
      (m2, ev1 ++ ev2)
  else initCb false m (Status.hostError kFailed)

/-- The `secondary_discov_cb` closure: downgrade the protocol error
`kUnsupportedGroupType` to success, then forward to
`status_cb_wrapper`. -/
def secondaryDiscovCb (alive : Bool) (m : Manager) (st : Status) : Manager × List Event :=
  let st2 := match st with
    | .protocolError code => if code = kUnsupportedGroupType then .success else st
    | _ => st
  statusCbWrapper alive m st2

/-- One run of the external transport: the MTU exchange status and, per
discovery kind, the services delivered through `svc_cb` followed by the
terminal status. -/
structure TransportRun where
  mtuStatus : Status
  primaryServices : List ServiceData
  primaryStatus : Status
  secondaryServices : List ServiceData
  secondaryStatus : Status
deriving DecidableEq, Repr

/-- The `primary_discov_cb` closure: if `self` is gone or primary
discovery failed, forward that status to `status_cb_wrapper` (secondary
discovery is not requested); otherwise run secondary discovery — its
services are added through `svc_cb`/`AddService` and its terminal status
goes to `secondary_discov_cb`. -/
def primaryDiscovCb (alive : Bool) (m : Manager) (t : TransportRun) : Manager × List Event :=
  if !alive || !t.primaryStatus.isSuccess then
    statusCbWrapper alive m t.primaryStatus
  else
    secondaryDiscovCb alive { m with services := addAll m.services t.secondaryServices }
      t.secondaryStatus

/-- The MTU-exchange continuation of `Initialize`: if `self` is gone,
call `init_cb(kFailed)` (a no-op for a dead manager); if the exchange
failed, complete initialization with that status; otherwise run
`DiscoverServices` — primary services are added through
`svc_cb`/`AddService` and the terminal status goes to
`primary_discov_cb`. -/
def mtuCb (alive : Bool) (m : Manager) (t : TransportRun) : Manager × List Event :=
  if alive then
    if !t.mtuStatus.isSuccess then initCb true m t.mtuStatus
    else
      primaryDiscovCb true { m with services := addAll m.services t.primaryServices } t
  else initCb false m (Status.hostError kFailed)

/-- The whole `Initialize` handshake as observed when the manager stays
alive: MTU exchange, then primary and secondary discovery. -/
def initRun (m : Manager) (t : TransportRun) : Manager × List Event :=
  mtuCb true m t

/-- `RemoteServiceManager::ListServices`: once initialized, complete the
request synchronously with a success status against the current catalog;
before that, enqueue it at the back of `pending_`. -/
def ListServices (m : Manager) (req : PendingRequest) : Manager × List Event :=
  if m.initialized then (m, [completeReq req Status.success m.services])
  else ({ m with pending := m.pending ++ [req] }, [])

/-- `RemoteServiceManager::FindService`: exact-key catalog lookup. -/
def FindService (m : Manager) (handle : Nat) : Option RemoteService :=
  findService m.services handle

/-- `~RemoteServiceManager`: detach the notification handler, clear the
catalog (shutting each service down), then drain `pending_` front to
back, completing each request with `HostError::kFailed` against the
(now empty) catalog. -/
def destructor (m : Manager) : Manager × List Event :=
  let (m1, ev1) := ClearServices m
  let drained := m1.pending.map (fun req => completeReq req (Status.hostError kFailed) m1.services)
  ({ m1 with pending := [] }, Event.handlerDetached :: (ev1 ++ drained))

/-- The ordering invariant of `services_`: entries are strictly sorted by
start handle (this is what `std::map` maintains, and it implies that no
two entries share a start handle). -/
abbrev handlesSorted (services : ServiceMap) : Prop :=
  services.Pairwise (fun a b => a.handle < b.handle)

/-- The filter of §4.2 stated in the spec's words: the records whose
`uuid` is in the set, all records when the set is empty, in catalog
order. -/
def specFilter (services : ServiceMap) (uuids : List Nat) : List RemoteService :=
  services.filter (fun svc => uuids.isEmpty || uuids.contains svc.uuid)

theorem mem_insertSorted (s : RemoteService) :
    ∀ (xs : ServiceMap) (y : RemoteService), y ∈ insertSorted xs s → y = s ∨ y ∈ xs := by
  intro xs
  induction xs with
  | nil =>
    intro y h
    simp [insertSorted] at h
    exact Or.inl h
  | cons x xs ih =>
    intro y h
    by_cases hc : s.handle < x.handle
    · simp only [insertSorted, if_pos hc, List.mem_cons] at h
      rcases h with h | h | h
      · exact Or.inl h
      · exact Or.inr (by simp [h])
      · exact Or.inr (by simp [h])
    · simp only [insertSorted, if_neg hc, List.mem_cons] at h
      rcases h with h | h
      · exact Or.inr (by simp [h])
      · rcases ih y h with h1 | h1
        · exact Or.inl h1
        · exact Or.inr (by simp [h1])

theorem insertSorted_sorted (s : RemoteService) :
    ∀ (xs : ServiceMap), handlesSorted xs → (∀ y ∈ xs, y.handle ≠ s.handle) →
      handlesSorted (insertSorted xs s) := by
  intro xs
  induction xs with
  | nil =>
    intro _ _
    simp [insertSorted, handlesSorted]
  | cons x xs ih =>
    intro hs hne
    have hx : ∀ y ∈ xs, x.handle < y.handle := fun y hy => (List.pairwise_cons.mp hs).1 y hy
    have hxs : handlesSorted xs := (List.pairwise_cons.mp hs).2
    by_cases hc : s.handle < x.handle
    · simp only [insertSorted, if_pos hc]
      refine List.pairwise_cons.mpr ⟨?_, hs⟩
      intro y hy
      rcases List.mem_cons.mp hy with rfl | hy'
      · exact hc
      · exact lt_trans hc (hx y hy')
    · simp only [insertSorted, if_neg hc]
      have hgt : x.handle < s.handle :=
        lt_of_le_of_ne (le_of_not_lt hc) (fun h => hne x (by simp) h)
      refine List.pairwise_cons.mpr
        ⟨?_, ih hxs (fun y hy => hne y (by simp [hy]))⟩
      intro y hy
      rcases mem_insertSorted s xs y hy with rfl | hy'
      · exact hgt
      · exact hx y hy'

theorem AddService_sorted (services : ServiceMap) (d : ServiceData)
    (hs : handlesSorted services) : handlesSorted (AddService services d) := by
  cases hfind : findService services d.range_start with
  | some s => simpa [AddService, hfind] using hs
  | none =>
    have heq : AddService services d = insertSorted services ⟨d⟩ := by
      simp [AddService, hfind]
    rw [heq]
    refine insertSorted_sorted _ _ hs ?_
    intro y hy
    have hmem := List.find?_eq_none.mp hfind y hy
    simpa [RemoteService.handle] using hmem

theorem AddService_duplicate (services : ServiceMap) (d : ServiceData)
    (h : (findService services d.range_start).isSome = true) :
    AddService services d = services := by
  rcases Option.isSome_iff_exists.mp h with ⟨s, hs⟩
  simp [AddService, hs]

theorem addAll_sorted (ds : List ServiceData) :
    ∀ services, handlesSorted services → handlesSorted (addAll services ds) := by
  induction ds with
  | nil =>
    intro s hs
    simpa [addAll] using hs
  | cons d ds ih =>
    intro s hs
    simpa [addAll] using ih (AddService s d) (AddService_sorted s d hs)

theorem statusCbWrapper_services (alive : Bool) (m : Manager) (st : Status) :
    (statusCbWrapper alive m st).1.services = m.services
    ∨ (statusCbWrapper alive m st).1.services = [] := by
  cases alive with
  | false => simp [statusCbWrapper, initCb]
  | true =>
    cases hst : st.isSuccess with
    | false => simp [statusCbWrapper, initCb, ClearServices, hst]
    | true => simp [statusCbWrapper, initCb, hst]

theorem statusCbWrapper_sorted (alive : Bool) (m : Manager) (st : Status)
    (hs : handlesSorted m.services) :
    handlesSorted (statusCbWrapper alive m st).1.services := by
  rcases statusCbWrapper_services alive m st with h | h
  · rw [h]; exact hs
  · rw [h]; exact List.Pairwise.nil

theorem secondaryDiscovCb_sorted (alive : Bool) (m : Manager) (st : Status)
    (hs : handlesSorted m.services) :
    handlesSorted (secondaryDiscovCb alive m st).1.services := by
  simp only [secondaryDiscovCb]
  exact statusCbWrapper_sorted _ _ _ hs

theorem primaryDiscovCb_sorted (alive : Bool) (m : Manager) (t : TransportRun)
    (hs : handlesSorted m.services) :
    handlesSorted (primaryDiscovCb alive m t).1.services := by
  by_cases h : (!alive || !t.primaryStatus.isSuccess) = true
  · simp only [primaryDiscovCb, if_pos h]
    exact statusCbWrapper_sorted _ _ _ hs
  · simp only [primaryDiscovCb, if_neg h]
    exact secondaryDiscovCb_sorted _ _ _ (addAll_sorted _ _ hs)

theorem mtuCb_sorted (alive : Bool) (m : Manager) (t : TransportRun)
    (hs : handlesSorted m.services) :
    handlesSorted (mtuCb alive m t).1.services := by
  cases alive with
  | false => simpa [mtuCb, initCb] using hs
  | true =>
    cases hst : t.mtuStatus.isSuccess with
    | false => simpa [mtuCb, initCb, hst] using hs
    | true =>
      simp only [mtuCb, hst, Bool.not_true, if_true, if_false]
      exact primaryDiscovCb_sorted _ _ _ (addAll_sorted _ _ hs)

theorem initRun_sorted (mgr : Manager) (t : TransportRun)
    (hs : handlesSorted mgr.services) :
    handlesSorted (initRun mgr t).1.services :=
  mtuCb_sorted true mgr t hs

theorem initRun_success (mgr : Manager) (prim sec : List ServiceData) :
    initRun mgr ⟨.success, prim, .success, sec, .success⟩ =
      ({ services := addAll (addAll mgr.services prim) sec, pending := [],
         initialized := true, svc_watcher := mgr.svc_watcher },
       (if mgr.svc_watcher then
          (addAll (addAll mgr.services prim) sec).map Event.watcherNotified
        else [])
         ++ Event.flagSet :: Event.initDone Status.success
         :: mgr.pending.map (fun req =>
              completeReq req Status.success (addAll (addAll mgr.services prim) sec))) := by
  simp [initRun, mtuCb, primaryDiscovCb, secondaryDiscovCb, statusCbWrapper, initCb]

theorem initRun_mtu_fail (mgr : Manager) (t : TransportRun)
    (hst : t.mtuStatus.isSuccess = false) :
    initRun mgr t =
      ({ services := mgr.services, pending := [], initialized := true,
         svc_watcher := mgr.svc_watcher },
       Event.flagSet :: Event.initDone t.mtuStatus
         :: mgr.pending.map (fun req => completeReq req t.mtuStatus mgr.services)) := by
  simp [initRun, mtuCb, initCb, hst]

theorem initRun_primary_fail (mgr : Manager) (prim sec : List ServiceData)
    (st sst : Status) (hst : st.isSuccess = false) :
    initRun mgr ⟨.success, prim, st, sec, sst⟩ =
      ({ services := [], pending := [], initialized := true,
         svc_watcher := mgr.svc_watcher },
       (addAll mgr.services prim).map Event.svcShutDown
         ++ Event.flagSet :: Event.initDone st
         :: mgr.pending.map (fun req => Event.listResult req.qid st [])) := by
  simp [initRun, mtuCb, primaryDiscovCb, statusCbWrapper, initCb, ClearServices,
        completeReq, hst]

theorem initRun_secondary_unsupported (mgr : Manager) (prim sec : List ServiceData) :
    initRun mgr ⟨.success, prim, .success, sec, .protocolError kUnsupportedGroupType⟩ =
      ({ services := addAll (addAll mgr.services prim) sec, pending := [],
         initialized := true, svc_watcher := mgr.svc_watcher },
       (if mgr.svc_watcher then
          (addAll (addAll mgr.services prim) sec).map Event.watcherNotified
        else [])
         ++ Event.flagSet :: Event.initDone Status.success
         :: mgr.pending.map (fun req =>
              completeReq req Status.success (addAll (addAll mgr.services prim) sec))) := by
  simp [initRun, mtuCb, primaryDiscovCb, secondaryDiscovCb, statusCbWrapper, initCb]

theorem initRun_secondary_fail (mgr : Manager) (prim sec : List ServiceData)
    (st : Status) (hst : st.isSuccess = false)
    (hne : st ≠ Status.protocolError kUnsupportedGroupType) :
    initRun mgr ⟨.success, prim, .success, sec, st⟩ =
      ({ services := [], pending := [], initialized := true,
         svc_watcher := mgr.svc_watcher },
       (addAll (addAll mgr.services prim) sec).map Event.svcShutDown
         ++ Event.flagSet :: Event.initDone st
         :: mgr.pending.map (fun req => Event.listResult req.qid st [])) := by
  cases st with
  | success => simp at hst
  | hostError code =>
    simp [initRun, mtuCb, primaryDiscovCb, secondaryDiscovCb, statusCbWrapper, initCb,
          ClearServices, completeReq]
  | protocolError code =>
    have hcode : code ≠ kUnsupportedGroupType := fun h => hne (by rw [h])
    simp [initRun, mtuCb, primaryDiscovCb, secondaryDiscovCb, statusCbWrapper, initCb,
          ClearServices, completeReq, hcode]

theorem destructor_eq (mgr : Manager) :
    destructor mgr =
      ({ services := [], pending := [], initialized := mgr.initialized,
         svc_watcher := mgr.svc_watcher },
       Event.handlerDetached
         :: (mgr.services.map Event.svcShutDown
             ++ mgr.pending.map (fun req =>
                  Event.listResult req.qid (Status.hostError kFailed) []))) := by
  simp [destructor, ClearServices, completeReq]

/-- C1: the claim says a notification whose `value_handle` precedes every
cataloged `start_handle` is dropped and is never delivered to a service
whose range does not contain it.  At the failing input — a catalog whose
only service covers `[10, 15]` and a notification at handle `5` — the
stepped-back upper-bound search is not stepped back (the iterator already
sits at `begin()`), the router's own debug assertion is violated, and
under release semantics the notification is delivered to the service
starting at `10`, whose range does not contain `5`. -/
theorem C1_notification_misrouted_below_catalog :
    OnNotification [⟨⟨10, 15, 100⟩⟩] 5 = NotifyOutcome.delivered ⟨⟨10, 15, 100⟩⟩
    ∧ 5 < RemoteService.handle ⟨⟨10, 15, 100⟩⟩
    ∧ onNotificationAssert [⟨⟨10, 15, 100⟩⟩] 5 = false := by decide

/-- C10: the claim says the debug assertion
`ZX_DEBUG_ASSERT(value_handle >= svc->handle())` in `OnNotification`
holds for every `value_handle`, including one smaller than every
cataloged start handle.  At the failing input — a catalog whose only
service covers `[20, 25]` and a notification at handle `7` — the
candidate entry is the first service (the upper bound already sits at
`begin()` and is not stepped back), its start handle `20` exceeds `7`,
and the assertion is violated. -/
theorem C10_router_assert_violated :
    onNotificationAssert [⟨⟨20, 25, 7⟩⟩] 7 = false
    ∧ notifCandidate [⟨⟨20, 25, 7⟩⟩] 7 = some ⟨⟨20, 25, 7⟩⟩ := by decide

/-- C9: resolving a service-list request with a success status produces
exactly the records whose uuid is in the filter set (all records when the
set is empty), in catalog iteration order — `completeReq` with a success
status computes the spec's filter — and `ListServices` called on an
initialized manager invokes the callback synchronously with exactly that
filtered list. -/
theorem C9_filter_correctness (req : PendingRequest) (services : ServiceMap)
    (m : Manager) (h : m.initialized = true) :
    completeReq req Status.success services
      = Event.listResult req.qid Status.success (specFilter services req.uuids)
    ∧ ListServices m req = (m, [completeReq req Status.success m.services]) := by
  constructor
  · cases services with
    | nil => simp [completeReq, specFilter]
    | cons s ss => simp [completeReq, specFilter]
  · simp [ListServices, h]

theorem C9_filter_correctness_witness :
    completeReq ⟨0, [200]⟩ Status.success [⟨⟨10, 15, 100⟩⟩, ⟨⟨20, 25, 200⟩⟩]
      = Event.listResult 0 Status.success [⟨⟨20, 25, 200⟩⟩]
    ∧ ListServices ⟨[⟨⟨10, 15, 100⟩⟩], [], true, false⟩ ⟨0, [200]⟩
      = (⟨[⟨⟨10, 15, 100⟩⟩], [], true, false⟩,
         [completeReq ⟨0, [200]⟩ Status.success [⟨⟨10, 15, 100⟩⟩]]) := by
  have h := C9_filter_correctness ⟨0, [200]⟩ [⟨⟨10, 15, 100⟩⟩, ⟨⟨20, 25, 200⟩⟩]
    ⟨[⟨⟨10, 15, 100⟩⟩], [], true, false⟩ rfl
  exact ⟨h.1.trans (by decide), h.2⟩

/-- C8: the catalog never contains two entries with the same start
handle: `AddService` keeps the catalog strictly sorted by start handle
(hence keys pairwise distinct), a duplicate start handle leaves the
catalog unchanged, and the sortedness invariant is preserved by the whole
discovery run and by teardown. -/
theorem C8_handle_uniqueness (m : ServiceMap) (d e : ServiceData)
    (mgr : Manager) (t : TransportRun)
    (hm : handlesSorted m) (hmgr : handlesSorted mgr.services)
    (hdup : (findService m e.range_start).isSome = true) :
    handlesSorted (AddService m d)
    ∧ (AddService m d).Pairwise (fun a b => a.handle ≠ b.handle)
    ∧ AddService m e = m
    ∧ handlesSorted (initRun mgr t).1.services
    ∧ handlesSorted (destructor mgr).1.services := by
  refine ⟨AddService_sorted m d hm,
    List.Pairwise.imp (fun h => Nat.ne_of_lt h) (AddService_sorted m d hm),
    AddService_duplicate m e hdup,
    initRun_sorted mgr t hmgr, ?_⟩
  simp [destructor, ClearServices]

theorem C8_handle_uniqueness_witness :
    handlesSorted (AddService [⟨⟨10, 15, 100⟩⟩] ⟨20, 25, 200⟩)
    ∧ (AddService [⟨⟨10, 15, 100⟩⟩] ⟨20, 25, 200⟩).Pairwise
        (fun a b => a.handle ≠ b.handle)
    ∧ AddService [⟨⟨10, 15, 100⟩⟩] ⟨10, 99, 999⟩ = [⟨⟨10, 15, 100⟩⟩]
    ∧ handlesSorted (initRun ⟨[], [], false, false⟩
        ⟨.success, [⟨10, 15, 100⟩], .success, [], .success⟩).1.services
    ∧ handlesSorted (destructor ⟨[], [], false, false⟩).1.services :=
  C8_handle_uniqueness [⟨⟨10, 15, 100⟩⟩] ⟨20, 25, 200⟩ ⟨10, 99, 999⟩
    ⟨[], [], false, false⟩ ⟨.success, [⟨10, 15, 100⟩], .success, [], .success⟩
    (by decide) (by decide) (by decide)

/-- C2 counterexample: the claim orders the successful-completion effects
as: initialization flag first, then the watcher calls, then the user
completion, then the pending drain.  At a concrete successful run (one
primary service, a registered watcher, one pending query) the actual
trace notifies the watcher *before* the flag is set, so the claimed
order does not hold. -/
theorem C2_claimed_order_counterexample :
    (initRun ⟨[], [⟨0, []⟩], false, true⟩
        ⟨.success, [⟨10, 15, 100⟩], .success, [], .success⟩).2
      ≠ [Event.flagSet,
         Event.watcherNotified ⟨⟨10, 15, 100⟩⟩,
         Event.initDone Status.success,
         Event.listResult 0 Status.success [⟨⟨10, 15, 100⟩⟩]]
    ∧ (initRun ⟨[], [⟨0, []⟩], false, true⟩
        ⟨.success, [⟨10, 15, 100⟩], .success, [], .success⟩).2
      = [Event.watcherNotified ⟨⟨10, 15, 100⟩⟩,
         Event.flagSet,
         Event.initDone Status.success,
         Event.listResult 0 Status.success [⟨⟨10, 15, 100⟩⟩]] := by decide

/-- C2 (amended): when the full discovery sequence completes
successfully, the effects happen in this strict order: the registered
discovery watcher is invoked once per cataloged service in catalog
(ascending start handle) order, *then* the initialization flag is set,
then the user's completion is invoked with success, then every pending
query is resolved strictly in FIFO enqueue order, each against the same
final catalog snapshot. -/
theorem C2_success_completion_order (mgr : Manager) (prim sec : List ServiceData)
    (hsort : handlesSorted mgr.services) :
    handlesSorted (addAll (addAll mgr.services prim) sec)
    ∧ initRun mgr ⟨.success, prim, .success, sec, .success⟩ =
      ({ services := addAll (addAll mgr.services prim) sec, pending := [],
         initialized := true, svc_watcher := mgr.svc_watcher },
       (if mgr.svc_watcher then
          (addAll (addAll mgr.services prim) sec).map Event.watcherNotified
        else [])
         ++ Event.flagSet :: Event.initDone Status.success
         :: mgr.pending.map (fun req =>
              completeReq req Status.success (addAll (addAll mgr.services prim) sec))) :=
  ⟨addAll_sorted sec _ (addAll_sorted prim _ hsort), initRun_success mgr prim sec⟩

theorem C2_success_completion_order_witness :
    handlesSorted (addAll (addAll ([] : ServiceMap) [⟨10, 15, 100⟩]) [⟨20, 25, 200⟩])
    ∧ initRun ⟨[], [⟨0, []⟩], false, true⟩
        ⟨.success, [⟨10, 15, 100⟩], .success, [⟨20, 25, 200⟩], .success⟩ =
      ({ services := addAll (addAll ([] : ServiceMap) [⟨10, 15, 100⟩]) [⟨20, 25, 200⟩],
         pending := [], initialized := true, svc_watcher := true },
       (if true then
          (addAll (addAll ([] : ServiceMap) [⟨10, 15, 100⟩]) [⟨20, 25, 200⟩]).map
            Event.watcherNotified
        else [])
         ++ Event.flagSet :: Event.initDone Status.success
         :: [PendingRequest.mk 0 []].map (fun req =>
              completeReq req Status.success
                (addAll (addAll ([] : ServiceMap) [⟨10, 15, 100⟩]) [⟨20, 25, 200⟩]))) :=
  C2_success_completion_order ⟨[], [⟨0, []⟩], false, true⟩
    [⟨10, 15, 100⟩] [⟨20, 25, 200⟩] (by decide)

/-- C3 counterexample: the claim says a transport callback firing after
the manager's destruction completes the user's `Initialize` completion
with a generic failure.  At a concrete input, the MTU continuation firing
with the manager gone produces *no* events at all — in particular the
user completion is never invoked, with any status: the inner `init_cb`
checks the weak pointer and returns before reaching the user callback. -/
theorem C3_dead_callback_counterexample :
    (mtuCb false ⟨[], [⟨0, []⟩], false, false⟩
        ⟨.success, [⟨10, 15, 100⟩], .success, [], .success⟩).2 = []
    ∧ Event.initDone (Status.hostError kFailed) ∉
        (mtuCb false ⟨[], [⟨0, []⟩], false, false⟩
          ⟨.success, [⟨10, 15, 100⟩], .success, [], .success⟩).2 := by decide

/-- C3 (amended): if the manager is destroyed before a pending transport
callback (the MTU continuation, a discovery terminal status, or the
wrapped discovery status callback) fires, that callback neither mutates
any manager state nor invokes any user-visible callback: the generic
failure it forwards dies inside `init_cb`, whose liveness check returns
before the user's completion is reached. -/
theorem C3_dead_callback_no_effect (m : Manager) (t : TransportRun) (st : Status) :
    mtuCb false m t = (m, [])
    ∧ primaryDiscovCb false m t = (m, [])
    ∧ statusCbWrapper false m st = (m, [])
    ∧ initCb false m st = (m, []) := by
  refine ⟨?_, ?_, ?_, ?_⟩ <;>
    simp [mtuCb, primaryDiscovCb, statusCbWrapper, initCb]

/-- C7: after destruction of the manager, the notification handler is
detached first; every cataloged record is shut down and the catalog ends
empty; every still-enqueued pending query is resolved exactly once — one
`listResult` event per queue entry, in FIFO order — with the generic
failure status and the empty result list; and the post-teardown catalog
routes no notification. -/
theorem C7_teardown (mgr : Manager) :
    destructor mgr =
      ({ services := [], pending := [], initialized := mgr.initialized,
         svc_watcher := mgr.svc_watcher },
       Event.handlerDetached
         :: (mgr.services.map Event.svcShutDown
             ++ mgr.pending.map (fun req =>
                  Event.listResult req.qid (Status.hostError kFailed) [])))
    ∧ ∀ value_handle,
        OnNotification (destructor mgr).1.services value_handle
          = NotifyOutcome.droppedUnknown := by
  refine ⟨destructor_eq mgr, ?_⟩
  intro value_handle
  have h : (destructor mgr).1.services = [] := by
    rw [destructor_eq]
  rw [h]
  simp [OnNotification]

/-- C4 counterexample: the claim says every `ListServices` query issued
after a discovery abort (until a later successful initialization) is
resolved with the same failure status.  At a concrete input where
discovery aborts with `hostError 3`, a query issued afterwards is
resolved with a *success* status (and an empty list): a failed
initialization still sets `initialized_`, and `ListServices` then
completes immediately with `att::Status()`. -/
theorem C4_future_query_counterexample :
    (ListServices (initRun ⟨[], [], false, false⟩
        ⟨.success, [⟨10, 15, 100⟩], .hostError 3, [], .success⟩).1 ⟨7, []⟩).2
      = [Event.listResult 7 Status.success []]
    ∧ Status.success ≠ Status.hostError 3 := by decide

/-- C4 (amended): when a discovery sequence aborts with a failure status,
every `ListServices` query pending at that time is resolved with that
same failure status (and an empty list); every query issued afterwards is
resolved immediately — the abort set the initialization flag and emptied
the catalog — but with a success status and an empty result list, not
with the failure status. -/
theorem C4_abort_propagation (mgr : Manager) (prim sec : List ServiceData)
    (st sst : Status) (req : PendingRequest) (hst : st.isSuccess = false) :
    (∀ r ∈ mgr.pending,
        Event.listResult r.qid st [] ∈ (initRun mgr ⟨.success, prim, st, sec, sst⟩).2)
    ∧ (initRun mgr ⟨.success, prim, st, sec, sst⟩).1.initialized = true
    ∧ (initRun mgr ⟨.success, prim, st, sec, sst⟩).1.services = []
    ∧ ListServices (initRun mgr ⟨.success, prim, st, sec, sst⟩).1 req
      = ((initRun mgr ⟨.success, prim, st, sec, sst⟩).1,
         [Event.listResult req.qid Status.success []]) := by
  have hrun := initRun_primary_fail mgr prim sec st sst hst
  rw [hrun]
  refine ⟨?_, rfl, rfl, ?_⟩
  · intro r hr
    refine List.mem_append_right _ ?_
    exact List.mem_cons_of_mem _ (List.mem_cons_of_mem _ (List.mem_map_of_mem _ hr))
  · simp [ListServices, completeReq]

theorem C4_abort_propagation_witness :
    Event.listResult 0 (Status.hostError 3) [] ∈
      (initRun ⟨[], [⟨0, []⟩], false, false⟩
        ⟨.success, [⟨10, 15, 100⟩], .hostError 3, [], .success⟩).2
    ∧ ListServices (initRun ⟨[], [⟨0, []⟩], false, false⟩
        ⟨.success, [⟨10, 15, 100⟩], .hostError 3, [], .success⟩).1 ⟨1, []⟩
      = ((initRun ⟨[], [⟨0, []⟩], false, false⟩
          ⟨.success, [⟨10, 15, 100⟩], .hostError 3, [], .success⟩).1,
         [Event.listResult 1 Status.success []]) := by
  have h := C4_abort_propagation ⟨[], [⟨0, []⟩], false, false⟩ [⟨10, 15, 100⟩] []
    (Status.hostError 3) .success ⟨1, []⟩ (by decide)
  exact ⟨h.1 ⟨0, []⟩ (by decide), h.2.2.2⟩

/-- C5: if primary service discovery fails after adding some services,
the catalog is cleared — every so-far-added record is shut down and the
catalog ends empty — secondary discovery is not attempted (the result
does not depend on the secondary phase's data), the completion is
invoked with the failure status, and every pending `ListServices`
resolves with that failure status and an empty result list, in FIFO
order. -/
theorem C5_primary_failure_rollback (mgr : Manager) (prim sec : List ServiceData)
    (st sst : Status) (hst : st.isSuccess = false) :
    initRun mgr ⟨.success, prim, st, sec, sst⟩ =
      ({ services := [], pending := [], initialized := true,
         svc_watcher := mgr.svc_watcher },
       (addAll mgr.services prim).map Event.svcShutDown
         ++ Event.flagSet :: Event.initDone st
         :: mgr.pending.map (fun req => Event.listResult req.qid st [])) :=
  initRun_primary_fail mgr prim sec st sst hst

theorem C5_primary_failure_rollback_witness :
    initRun ⟨[], [⟨0, []⟩], false, false⟩
      ⟨.success, [⟨10, 15, 100⟩, ⟨20, 25, 200⟩], .hostError 3, [⟨30, 35, 300⟩],
       .success⟩ =
    (⟨[], [], true, false⟩,
     [Event.svcShutDown ⟨⟨10, 15, 100⟩⟩, Event.svcShutDown ⟨⟨20, 25, 200⟩⟩,
      Event.flagSet, Event.initDone (Status.hostError 3),
      Event.listResult 0 (Status.hostError 3) []]) :=
  (C5_primary_failure_rollback ⟨[], [⟨0, []⟩], false, false⟩
    [⟨10, 15, 100⟩, ⟨20, 25, 200⟩] [⟨30, 35, 300⟩] (Status.hostError 3) .success
    (by decide)).trans (by decide)

/-- C6: if primary discovery succeeds and the secondary phase reports the
protocol error "unsupported group type" (delivering no services, as this
error means the very request was rejected), the error is downgraded to
success: initialization completes with a success status and the catalog
retains exactly the primary-phase services.  Any other secondary-phase
failure clears the entire catalog — both phases are shut down — and
fails initialization with that status. -/
theorem C6_secondary_downgrade (mgr : Manager) (prim sec : List ServiceData)
    (st : Status) (hst : st.isSuccess = false)
    (hne : st ≠ Status.protocolError kUnsupportedGroupType) :
    initRun mgr ⟨.success, prim, .success, [], .protocolError kUnsupportedGroupType⟩ =
      ({ services := addAll mgr.services prim, pending := [],
         initialized := true, svc_watcher := mgr.svc_watcher },
       (if mgr.svc_watcher then
          (addAll mgr.services prim).map Event.watcherNotified
        else [])
         ++ Event.flagSet :: Event.initDone Status.success
         :: mgr.pending.map (fun req =>
              completeReq req Status.success (addAll mgr.services prim)))
    ∧ initRun mgr ⟨.success, prim, .success, sec, st⟩ =
      ({ services := [], pending := [], initialized := true,
         svc_watcher := mgr.svc_watcher },
       (addAll (addAll mgr.services prim) sec).map Event.svcShutDown
         ++ Event.flagSet :: Event.initDone st
         :: mgr.pending.map (fun req => Event.listResult req.qid st [])) :=
  ⟨initRun_secondary_unsupported mgr prim [],
   initRun_secondary_fail mgr prim sec st hst hne⟩

theorem C6_secondary_downgrade_witness :
    initRun ⟨[], [⟨0, []⟩], false, true⟩
      ⟨.success, [⟨10, 15, 100⟩], .success, [], .protocolError kUnsupportedGroupType⟩ =
    (⟨[⟨⟨10, 15, 100⟩⟩], [], true, true⟩,
     [Event.watcherNotified ⟨⟨10, 15, 100⟩⟩, Event.flagSet,
      Event.initDone Status.success,
      Event.listResult 0 Status.success [⟨⟨10, 15, 100⟩⟩]])
    ∧ initRun ⟨[], [⟨0, []⟩], false, true⟩
      ⟨.success, [⟨10, 15, 100⟩], .success, [⟨20, 25, 200⟩], .hostError 9⟩ =
    (⟨[], [], true, true⟩,
     [Event.svcShutDown ⟨⟨10, 15, 100⟩⟩, Event.svcShutDown ⟨⟨20, 25, 200⟩⟩,
      Event.flagSet, Event.initDone (Status.hostError 9),
      Event.listResult 0 (Status.hostError 9) []]) := by
  have h := C6_secondary_downgrade ⟨[], [⟨0, []⟩], false, true⟩ [⟨10, 15, 100⟩]
    [⟨20, 25, 200⟩] (Status.hostError 9) (by decide) (by decide)
  exact ⟨h.1.trans (by decide), h.2.trans (by decide)⟩

end RemoteServiceManagerModel
